import Mathlib

/-!
# Interaction script of the agency site (`src/script.js`)

A shallow embedding of the DOM state the script reads and writes, and of each of
its handlers, followed by the properties of the specification.

Modelling decisions, all taken from the source:

* The document is the list of its elements in document order; an element
  reference is an index into that list.  The script never removes or reorders
  an element, so indices are stable.  The markup of the menu button is held as
  its `innerHTML` string; the icon inside it is not an element of the list.
* `document.getElementById` returns the first element in document order with
  the given id; `document.querySelectorAll('.c')` selects by class membership.
* The constants `header`, `mobileMenuBtn`, `mainNav`, `navLinks`, `pages`,
  `contactForm`, `serviceCards` and `portfolioItems` are looked up once, when
  the document is loaded.  The script writes only the classes `active` and
  `scrolled`, never an id and never one of the selector classes, so looking them
  up again in the current document gives the same references; the embedding
  does that.
* A JavaScript `TypeError` (a property read on `null`) ends the running handler
  and keeps what it has written so far: `Completion.abrupt`.
* Numbers (`scrollY`, `innerWidth`, `innerHeight`, bounding-box tops) are
  rationals; `1.2` is the rational `6/5`.
* Strings are sequences of characters; `substring(1)` drops the first one.
-/

namespace Site

/-! ## Data model -/

/-- Inline style properties the script writes. -/
structure Style where
  opacity : String
  transform : String
  transition : String
deriving DecidableEq, Repr

/-- One element of the document, with the attributes and properties the script
touches. -/
structure Element where
  /-- The `id` attribute, if present. -/
  id : Option String
  /-- The `classList` tokens, in order. -/
  classList : List String
  /-- The result of `getAttribute('href')`; `none` is `null`. -/
  href : Option String
  /-- The `innerHTML` markup. -/
  innerHTML : String
  style : Style
  /-- The current `value` of a form control. -/
  value : String
  /-- The value a form control returns to when its form is reset. -/
  defaultValue : String
  /-- The form owner of a form control: the index of its form element. -/
  formOwner : Option Nat
  /-- The `textContent` of the first `h3` descendant, if there is one. -/
  heading : Option String
deriving DecidableEq, Repr

/-- The document: its elements in document order. -/
abbrev Doc := List Element

/-- The part of the browser window the handlers read. -/
structure Window where
  scrollY : ℚ
  innerWidth : ℚ
  innerHeight : ℚ
  /-- The value of `getBoundingClientRect().top` for the element at an index. -/
  top : Nat → ℚ

/-- The observable state: the document and the messages shown by `alert`. -/
structure World where
  doc : Doc
  alerts : List String
deriving DecidableEq, Repr

/-- How a handler ends: normally, or by a `TypeError` that leaves the writes
made before it. -/
inductive Completion where
  | normal (w : World)
  | abrupt (w : World)
deriving DecidableEq, Repr

/-- The state a handler leaves behind, however it ended. -/
def Completion.world : Completion → World
  | .normal w => w
  | .abrupt w => w

/-! ## DOM primitives -/

/-- The method `classList.contains(t)`. -/
def Element.hasClass (e : Element) (t : String) : Bool := decide (t ∈ e.classList)

/-- The method `classList.add(t)`: appends the token unless it is present. -/
def Element.addClass (t : String) (e : Element) : Element :=
  if t ∈ e.classList then e else { e with classList := e.classList ++ [t] }

/-- The method `classList.remove(t)`. -/
def Element.removeClass (t : String) (e : Element) : Element :=
  { e with classList := e.classList.filter (· ≠ t) }

/-- The method `classList.toggle(t)`. -/
def Element.toggleClass (t : String) (e : Element) : Element :=
  if t ∈ e.classList then e.removeClass t else { e with classList := e.classList ++ [t] }

/-- The assignment `element.innerHTML = s`. -/
def Element.setInnerHTML (s : String) (e : Element) : Element := { e with innerHTML := s }

/-- The assignment `element.style.transform = s`. -/
def Element.setTransform (s : String) (e : Element) : Element :=
  { e with style := { e.style with transform := s } }

/-- Apply `f` to the element at index `i`; nothing happens when `i` is out of
range. -/
def updateAt (f : Element → Element) : Nat → Doc → Doc
  | _, [] => []
  | 0, e :: es => f e :: es
  | i + 1, e :: es => e :: updateAt f i es

/-- The index of the first element whose id attribute is `id`. -/
def findId (id : String) : Doc → Option Nat
  | [] => none
  | e :: es => if e.id = some id then some 0 else (findId id es).map (· + 1)

/-- The method `document.getElementById(id)`; the empty string matches nothing. -/
def getElementById (d : Doc) (id : String) : Option Nat :=
  if id = "" then none else findId id d

/-- Indices of the elements satisfying `p`, in document order. -/
def indicesWhere (p : Element → Bool) : Doc → List Nat
  | [] => []
  | e :: es => (if p e then [0] else []) ++ (indicesWhere p es).map (· + 1)

/-- Run `f` on every element selected by `p`: a `forEach` over the result of
`document.querySelectorAll`. -/
def forEachWhere (p : Element → Bool) (f : Element → Element) (d : Doc) : Doc :=
  d.map (fun e => if p e then f e else e)

/-- The selector `.page`. -/
def isPage (e : Element) : Bool := e.hasClass "page"

/-- The selector `.nav-link`. -/
def isNavLink (e : Element) : Bool := e.hasClass "nav-link"

/-- The selector `.service-card, .feature-card, .portfolio-item`. -/
def isAnimated (e : Element) : Bool :=
  e.hasClass "service-card" || e.hasClass "feature-card" || e.hasClass "portfolio-item"

/-- Markup of the "close" icon. -/
def iconTimes : String := "<i class=\"fas fa-times\"></i>"

/-- Markup of the "bars" icon. -/
def iconBars : String := "<i class=\"fas fa-bars\"></i>"

/-- The method `s.substring(1)`.  JavaScript drops one UTF-16 code unit, this
definition one character; the two agree whenever the first character is a
single code unit, as `#` and every other character of the Basic Multilingual
Plane is. -/
def substring1 (s : String) : String := ⟨s.data.drop 1⟩

/-! ## The handlers -/

/-- The function `setupAnimations` (lines 67-81): the initial style of every
animated element.  The listener and the timer it registers are events of
`dispatch`. -/
def setupAnimations (d : Doc) : Doc :=
  forEachWhere isAnimated
    (fun e => { e with style :=
      { opacity := "0", transform := "translateY(30px)",
        transition := "opacity 0.8s ease, transform 0.8s ease" } }) d

/-- The function `updateHeaderOnScroll` (lines 86-92). -/
def updateHeaderOnScroll (win : Window) (w : World) : Completion :=
  match getElementById w.doc "header" with
  | none => .abrupt w
  | some h =>
    if win.scrollY > 50 then
      .normal { w with doc := updateAt (Element.addClass "scrolled") h w.doc }
    else
      .normal { w with doc := updateAt (Element.removeClass "scrolled") h w.doc }

/-- Whether the element at index `i` carries the class `t`. -/
def containsClass (d : Doc) (i : Nat) (t : String) : Bool :=
  match d[i]? with
  | some e => e.hasClass t
  | none => false

/-- The function `toggleMobileMenu` (lines 97-102). -/
def toggleMobileMenu (w : World) : Completion :=
  match getElementById w.doc "mainNav" with
  | none => .abrupt w
  | some n =>
    let d1 := updateAt (Element.toggleClass "active") n w.doc
    match getElementById w.doc "mobileMenuBtn" with
    | none => .abrupt { w with doc := d1 }
    | some b =>
      let icon := if containsClass d1 n "active" then iconTimes else iconBars
      .normal { w with doc := updateAt (Element.setInnerHTML icon) b d1 }

/-- The function `setActivePage` (lines 131-142). -/
def setActivePage (pageId : String) (d : Doc) : Doc :=
  let d1 := forEachWhere isPage (Element.removeClass "active") d
  match getElementById d1 pageId with
  | some t => updateAt (Element.addClass "active") t d1
  | none => d1

/-- The function `updateActiveNavLink` (lines 148-153). -/
def updateActiveNavLink (clickedLink : Nat) (d : Doc) : Doc :=
  updateAt (Element.addClass "active") clickedLink
    (forEachWhere isNavLink (Element.removeClass "active") d)

/-- The function `closeMobileMenu` (lines 158-163). -/
def closeMobileMenu (w : World) : Completion :=
  match getElementById w.doc "mainNav" with
  | none => .abrupt w
  | some n =>
    if containsClass w.doc n "active" then
      let d1 := updateAt (Element.removeClass "active") n w.doc
      match getElementById w.doc "mobileMenuBtn" with
      | none => .abrupt { w with doc := d1 }
      | some b => .normal { w with doc := updateAt (Element.setInnerHTML iconBars) b d1 }
    else .normal w

/-- The target id `handleNavigation` computes from a link's href (line 112). -/
def targetIdOf (href : String) : String := substring1 href

/-- The function `handleNavigation` (lines 108-125), with `this` the element at
index `link`.  `preventDefault` and `scrollTo` write nothing the model holds. -/
def handleNavigation (link : Nat) (w : World) : Completion :=
  match w.doc[link]? with
  | none => .abrupt w
  | some e =>
    match e.href with
    | none => .abrupt w
    | some href =>
      closeMobileMenu
        { w with doc := updateActiveNavLink link (setActivePage (targetIdOf href) w.doc) }

/-- The message built by `showSuccessMessage` (line 194). -/
def successMessage (name email service : String) : String :=
  "Thank you, " ++ name ++ "! Your message has been sent. We'll contact you at "
    ++ email ++ " regarding " ++ service ++ " soon."

/-- The function `showSuccessMessage` (lines 192-198). -/
def showSuccessMessage (name email service : String) (w : World) : World :=
  { w with alerts := w.alerts ++ [successMessage name email service] }

/-- The method `form.reset()`: every control owned by the form returns to its
default value. -/
def resetForm (form : Nat) (d : Doc) : Doc :=
  d.map (fun e => if e.formOwner = some form then { e with value := e.defaultValue } else e)

/-- The `value` of the element with the given id, `none` when there is no such
element. -/
def valueOf (d : Doc) (id : String) : Option String :=
  match getElementById d id with
  | none => none
  | some i => (d[i]?).map (·.value)

/-- The function `handleFormSubmit` (lines 169-184). -/
def handleFormSubmit (w : World) : Completion :=
  match valueOf w.doc "name" with
  | none => .abrupt w
  | some name =>
    match valueOf w.doc "email" with
    | none => .abrupt w
    | some email =>
      match valueOf w.doc "service" with
      | none => .abrupt w
      | some service =>
        match valueOf w.doc "message" with
        | none => .abrupt w
        | some _ =>
          let w1 := showSuccessMessage name email service w
          match getElementById w.doc "contactForm" with
          | none => .abrupt w1
          | some f => .normal { w1 with doc := resetForm f w1.doc }

/-- The function `enhanceCardHover` (lines 203-205), with `this` at index `card`. -/
def enhanceCardHover (card : Nat) (w : World) : World :=
  { w with doc := updateAt (Element.setTransform "translateY(-10px) scale(1.02)") card w.doc }

/-- The function `resetCardHover` (lines 210-212), with `this` at index `card`. -/
def resetCardHover (card : Nat) (w : World) : World :=
  { w with doc := updateAt (Element.setTransform "translateY(-10px) scale(1)") card w.doc }

/-- The function `handlePortfolioClick` (lines 217-223), with `this` at index
`item`. -/
def handlePortfolioClick (item : Nat) (w : World) : Completion :=
  match w.doc[item]? with
  | none => .abrupt w
  | some e =>
    match e.heading with
    | none => .abrupt w
    | some title =>
      .normal { w with alerts := w.alerts ++
        ["Viewing project: " ++ title ++
          "\n\nThis is a premium project showcase. Contact us to discuss similar solutions for your business."] }

/-- The threshold `window.innerHeight / 1.2` (line 233). -/
def screenPosition (win : Window) : ℚ := win.innerHeight / 1.2

/-- The style `animateOnScroll` gives an element in view (lines 236-237). -/
def reveal (e : Element) : Element :=
  { e with style := { e.style with opacity := "1", transform := "translateY(0)" } }

/-- The loop of `animateOnScroll` over the document, `k` being the index of the
first element of the list. -/
def animateFrom (win : Window) : Nat → Doc → Doc
  | _, [] => []
  | k, e :: es =>
    (if isAnimated e && decide (win.top k < screenPosition win) then reveal e else e)
      :: animateFrom win (k + 1) es

/-- The function `animateOnScroll` (lines 228-240). -/
def animateOnScroll (win : Window) (w : World) : World :=
  { w with doc := animateFrom win 0 w.doc }

/-- The function `handleResize` (lines 245-250). -/
def handleResize (win : Window) (w : World) : Completion :=
  if win.innerWidth > 768 then
    match getElementById w.doc "mainNav" with
    | none => .abrupt w
    | some n => if containsClass w.doc n "active" then closeMobileMenu w else .normal w
  else .normal w

/-- The function `init` (lines 20-27).  `setupEventListeners` fails on its
second statement when the menu button is missing, and then nothing else of
`init` runs. -/
def init (win : Window) (w : World) : Completion :=
  match getElementById w.doc "mobileMenuBtn" with
  | none => .abrupt w
  | some _ =>
    updateHeaderOnScroll win { w with doc := setActivePage "home" (setupAnimations w.doc) }

/-! ## Events -/

/-- The browser events the script listens to. -/
inductive Event where
  | scroll (win : Window)
  | timer (win : Window)
  | resize (win : Window)
  | menuClick
  | navClick (link : Nat)
  | cardEnter (card : Nat)
  | cardLeave (card : Nat)
  | portfolioClick (item : Nat)
  | formSubmit

/-- The listeners bound by `setupEventListeners` and `setupAnimations`
(lines 32-62, 77, 80).  Without a menu button only the first scroll listener
was bound. -/
def dispatch (w : World) : Event → World
  | .scroll win =>
    let w1 := (updateHeaderOnScroll win w).world
    match getElementById w.doc "mobileMenuBtn" with
    | none => w1
    | some _ => animateOnScroll win w1
  | ev =>
    match getElementById w.doc "mobileMenuBtn" with
    | none => w
    | some _ =>
      match ev with
      | .scroll _ => w
      | .timer win => animateOnScroll win w
      | .resize win => (handleResize win w).world
      | .menuClick => (toggleMobileMenu w).world
      | .navClick link =>
        if containsClass w.doc link "nav-link" then (handleNavigation link w).world else w
      | .cardEnter card =>
        if containsClass w.doc card "service-card" then enhanceCardHover card w else w
      | .cardLeave card =>
        if containsClass w.doc card "service-card" then resetCardHover card w else w
      | .portfolioClick item =>
        if containsClass w.doc item "portfolio-item" then (handlePortfolioClick item w).world
        else w
      | .formSubmit =>
        match getElementById w.doc "contactForm" with
        | none => w
        | some _ => (handleFormSubmit w).world

/-- The state after a sequence of events. -/
def run (w : World) (evs : List Event) : World := evs.foldl dispatch w

/-- The state after a sequence of clicks on the nav links at the given indices. -/
def runClicks (w : World) (links : List Nat) : World :=
  links.foldl (fun w l => (handleNavigation l w).world) w

/-- A blank element. -/
def blank : Element :=
  { id := none, classList := [], href := none, innerHTML := "",
    style := { opacity := "", transform := "", transition := "" },
    value := "", defaultValue := "", formOwner := none, heading := none }

/-- A small document in the shape the script expects: header, menu button,
navigation container, two nav links, two pages, two cards, the contact form
with its four controls, and a nav link to a page that does not exist. -/
def sampleDoc : Doc :=
  [ { blank with id := some "header" },
    { blank with id := some "mobileMenuBtn", innerHTML := iconBars },
    { blank with id := some "mainNav" },
    { blank with classList := ["nav-link", "active"], href := some "#home" },
    { blank with classList := ["nav-link"], href := some "#about" },
    { blank with id := some "home", classList := ["page", "active"] },
    { blank with id := some "about", classList := ["page"] },
    { blank with classList := ["service-card"] },
    { blank with classList := ["portfolio-item"], heading := some "Brand refresh" },
    { blank with id := some "contactForm" },
    { blank with id := some "name", value := "Ann", formOwner := some 9 },
    { blank with id := some "email", value := "a@x.com", formOwner := some 9 },
    { blank with id := some "service", value := "Branding", formOwner := some 9 },
    { blank with id := some "message", value := "Hello", formOwner := some 9 },
    { blank with classList := ["nav-link"], href := some "#team" } ]

/-- A document in which one element, the one with id `about`, is a page section
and a nav link at once. -/
def sharedRoleDoc : Doc :=
  [ { blank with id := some "header" },
    { blank with id := some "mobileMenuBtn", innerHTML := iconBars },
    { blank with id := some "mainNav" },
    { blank with id := some "home", classList := ["page", "active"] },
    { blank with classList := ["nav-link"], href := some "#about" },
    { blank with id := some "about", classList := ["page", "nav-link"], href := some "#about" } ]

/-- A contact form whose service control is a select list without an empty
option: its default value is its first option, `Web Design`. -/
def selectDoc : Doc :=
  [ { blank with id := some "header" },
    { blank with id := some "mobileMenuBtn", innerHTML := iconBars },
    { blank with id := some "mainNav" },
    { blank with id := some "contactForm" },
    { blank with id := some "name", value := "Ann", formOwner := some 3 },
    { blank with id := some "email", value := "a@x.com", formOwner := some 3 },
    { blank with id := some "service", value := "Branding", defaultValue := "Web Design",
                 formOwner := some 3 },
    { blank with id := some "message", value := "Hello", formOwner := some 3 } ]

/-- The text `a` occurs verbatim in the text `b`. -/
def occursIn (a b : String) : Prop := a.data <:+: b.data

instance (a b : String) : Decidable (occursIn a b) :=
  inferInstanceAs (Decidable (a.data <:+: b.data))

/-- The element has been shown and not been put back: its opacity is `1` and
its transform is not the initial downward offset. -/
def Shown (e : Element) : Prop :=
  e.style.opacity = "1" ∧ e.style.transform ≠ "translateY(30px)"

instance (e : Element) : Decidable (Shown e) :=
  inferInstanceAs (Decidable (_ ∧ _))

/-- Every element shown in `d` is, at the same index, shown in `d'`. -/
def Keeps (d d' : Doc) : Prop :=
  ∀ (i : Nat) (e : Element), d[i]? = some e → Shown e → ∃ e', d'[i]? = some e' ∧ Shown e'

/-- A document whose nav link to the page `about` carries the href
`index.html#about`. -/
def pathHrefDoc : Doc :=
  [ { blank with id := some "header" },
    { blank with id := some "mobileMenuBtn", innerHTML := iconBars },
    { blank with id := some "mainNav" },
    { blank with id := some "home", classList := ["page", "active"] },
    { blank with id := some "about", classList := ["page"] },
    { blank with classList := ["nav-link"], href := some "index.html#about" } ]

/-- A document in which the id `about` is carried twice: first by an anchor that
is no page section (index 3), then by the page section (index 5). -/
def duplicateIdDoc : Doc :=
  [ { blank with id := some "header" },
    { blank with id := some "mobileMenuBtn", innerHTML := iconBars },
    { blank with id := some "mainNav" },
    { blank with id := some "about" },
    { blank with id := some "home", classList := ["page", "active"] },
    { blank with id := some "about", classList := ["page"] } ]

/-- The sample document with nothing alerted yet. -/
def sampleWorld : World := { doc := sampleDoc, alerts := [] }

/-- A window scrolled to offset `y`, 1024 by 600, with every element at the
top offset `t`. -/
def windowAt (y t : ℚ) : Window :=
  { scrollY := y, innerWidth := 1024, innerHeight := 600, top := fun _ => t }

/-- Indices of the page sections that carry the visibility flag. -/
def activePages (d : Doc) : List Nat :=
  indicesWhere (fun e => isPage e && e.hasClass "active") d

/-- Indices of the nav links that carry the active flag. -/
def activeNavLinks (d : Doc) : List Nat :=
  indicesWhere (fun e => isNavLink e && e.hasClass "active") d

/-- What decides the part an element plays for navigation: its id, its href
and whether it is a page section or a nav link. -/
def roleKey (e : Element) : Option String × Option String × Bool × Bool :=
  (e.id, e.href, isPage e, isNavLink e)

/-- The element plays at most one part: it is not both a page section and a nav
link, and if its id is `mainNav` it is neither. -/
def roleOk (e : Element) : Bool :=
  !(isPage e && isNavLink e) &&
    !(decide (e.id = some "mainNav") && (isPage e || isNavLink e))

/-- Every element of the document plays at most one part. -/
def rolesApart (d : Doc) : Bool := d.all roleOk

/-- A click on the element at index `link` is a click on a nav link whose
target id (line 112) resolves to a page section. -/
def validClick (d : Doc) (link : Nat) : Bool :=
  match d[link]? with
  | none => false
  | some e =>
    isNavLink e &&
      match e.href with
      | none => false
      | some href =>
        match getElementById d (targetIdOf href) with
        | none => false
        | some t => containsClass d t "page"

/-- The portion of a link target after its first `#`: the fragment identifier
of the specification's glossary.  `none` when the target has no `#`. -/
def fragmentOf (href : String) : Option String :=
  if '#' ∈ href.data then some ⟨(href.data.dropWhile (· ≠ '#')).drop 1⟩ else none

/-! ## Lemmas on the DOM primitives -/

@[simp] theorem hasClass_addClass_self (t : String) (e : Element) :
    (e.addClass t).hasClass t = true := by
  unfold Element.addClass Element.hasClass
  split <;> simp_all

@[simp] theorem hasClass_removeClass_self (t : String) (e : Element) :
    (e.removeClass t).hasClass t = false := by
  simp [Element.removeClass, Element.hasClass]

theorem hasClass_addClass_of_ne {t c : String} (h : c ≠ t) (e : Element) :
    (e.addClass t).hasClass c = e.hasClass c := by
  unfold Element.addClass Element.hasClass
  split <;> simp_all

theorem hasClass_removeClass_of_ne {t c : String} (h : c ≠ t) (e : Element) :
    (e.removeClass t).hasClass c = e.hasClass c := by
  simp [Element.removeClass, Element.hasClass, h]

@[simp] theorem hasClass_setInnerHTML (s t : String) (e : Element) :
    (e.setInnerHTML s).hasClass t = e.hasClass t := rfl

@[simp] theorem hasClass_setTransform (s t : String) (e : Element) :
    (e.setTransform s).hasClass t = e.hasClass t := rfl

theorem hasClass_toggleClass_self (t : String) (e : Element) :
    (e.toggleClass t).hasClass t = !e.hasClass t := by
  unfold Element.toggleClass
  by_cases h : t ∈ e.classList
  · simp [h, Element.hasClass, Element.removeClass]
  · simp [h, Element.hasClass]

@[simp] theorem length_updateAt (f : Element → Element) (i : Nat) (d : Doc) :
    (updateAt f i d).length = d.length := by
  induction d generalizing i with
  | nil => simp [updateAt]
  | cons e es ih => cases i <;> simp [updateAt, ih]

theorem getElem?_updateAt (f : Element → Element) (i j : Nat) (d : Doc) :
    (updateAt f i d)[j]? = if j = i then (d[j]?).map f else d[j]? := by
  induction d generalizing i j with
  | nil => simp [updateAt]
  | cons e es ih =>
    cases i with
    | zero => cases j <;> simp [updateAt]
    | succ i => cases j <;> simp [updateAt, ih]

theorem getElem?_updateAt_self (f : Element → Element) (i : Nat) (d : Doc) :
    (updateAt f i d)[i]? = (d[i]?).map f := by
  simp [getElem?_updateAt]

theorem getElem?_updateAt_of_ne (f : Element → Element) {i j : Nat} (h : j ≠ i) (d : Doc) :
    (updateAt f i d)[j]? = d[j]? := by
  simp [getElem?_updateAt, h]

theorem findId_some {id : String} {d : Doc} {i : Nat} (h : findId id d = some i) :
    ∃ e, d[i]? = some e ∧ e.id = some id := by
  induction d generalizing i with
  | nil => simp [findId] at h
  | cons e es ih =>
    unfold findId at h
    split at h
    · cases h; exact ⟨e, by simp, by assumption⟩
    · cases hf : findId id es with
      | none => simp [hf] at h
      | some k =>
        simp [hf] at h
        subst h
        obtain ⟨e', h1, h2⟩ := ih hf
        exact ⟨e', by simpa using h1, h2⟩

theorem getElementById_some {id : String} {d : Doc} {i : Nat}
    (h : getElementById d id = some i) : ∃ e, d[i]? = some e ∧ e.id = some id := by
  unfold getElementById at h
  split at h
  · cases h
  · exact findId_some h

/-- The lookup by id only reads the id attributes. -/
theorem findId_congr (id : String) {d d' : Doc} (h : d.map (·.id) = d'.map (·.id)) :
    findId id d = findId id d' := by
  induction d generalizing d' with
  | nil => cases d' <;> simp_all [findId]
  | cons e es ih =>
    cases d' with
    | nil => simp at h
    | cons e' es' =>
      simp only [List.map_cons, List.cons.injEq] at h
      simp [findId, h.1, ih h.2]

theorem getElementById_congr (id : String) {d d' : Doc} (h : d.map (·.id) = d'.map (·.id)) :
    getElementById d id = getElementById d' id := by
  unfold getElementById
  rw [findId_congr id h]

theorem map_id_updateAt (f : Element → Element) (hf : ∀ e, (f e).id = e.id) (i : Nat) (d : Doc) :
    (updateAt f i d).map (·.id) = d.map (·.id) := by
  induction d generalizing i with
  | nil => simp [updateAt]
  | cons e es ih => cases i <;> simp [updateAt, ih, hf]

theorem map_id_forEachWhere (p : Element → Bool) (f : Element → Element)
    (hf : ∀ e, (f e).id = e.id) (d : Doc) :
    (forEachWhere p f d).map (·.id) = d.map (·.id) := by
  unfold forEachWhere
  rw [List.map_map]
  apply List.map_congr_left
  intro e _
  simp only [Function.comp]
  split <;> simp [hf]

@[simp] theorem addClass_id (t : String) (e : Element) : (e.addClass t).id = e.id := by
  unfold Element.addClass; split <;> rfl

@[simp] theorem removeClass_id (t : String) (e : Element) : (e.removeClass t).id = e.id := rfl

@[simp] theorem toggleClass_id (t : String) (e : Element) : (e.toggleClass t).id = e.id := by
  unfold Element.toggleClass; split <;> rfl

theorem containsClass_eq {d : Doc} {i : Nat} {e : Element} (h : d[i]? = some e) (t : String) :
    containsClass d i t = e.hasClass t := by
  simp [containsClass, h]

/-! ## The header marker (C7) -/

/-- C7: after `updateHeaderOnScroll`, the header carries `scrolled` for every
scroll offset of at least 51 and does not carry it for every offset of at most
50, whatever its classes were before. -/
theorem updateHeaderOnScroll_marker (win : Window) (w : World) (h : Nat)
    (hh : getElementById w.doc "header" = some h) :
    (51 ≤ win.scrollY →
      containsClass (updateHeaderOnScroll win w).world.doc h "scrolled" = true) ∧
    (win.scrollY ≤ 50 →
      containsClass (updateHeaderOnScroll win w).world.doc h "scrolled" = false) := by
  obtain ⟨e, he, _⟩ := getElementById_some hh
  constructor
  · intro hy
    have : win.scrollY > 50 := by linarith
    simp [updateHeaderOnScroll, hh, this, Completion.world, containsClass,
      getElem?_updateAt_self, he]
  · intro hy
    have : ¬ win.scrollY > 50 := by linarith
    simp [updateHeaderOnScroll, hh, this, Completion.world, containsClass,
      getElem?_updateAt_self, he]

/-- C7 at the sample document: offset 80 sets the marker, and offset 50 then
clears it again. -/
theorem updateHeaderOnScroll_marker_witness :
    containsClass (updateHeaderOnScroll (windowAt 80 0) sampleWorld).world.doc 0 "scrolled" = true ∧
    containsClass (updateHeaderOnScroll (windowAt 50 0)
      (updateHeaderOnScroll (windowAt 80 0) sampleWorld).world).world.doc 0 "scrolled" = false :=
  ⟨(updateHeaderOnScroll_marker (windowAt 80 0) sampleWorld 0 (by decide)).1 (by decide),
   (updateHeaderOnScroll_marker (windowAt 50 0)
      (updateHeaderOnScroll (windowAt 80 0) sampleWorld).world 0 (by decide)).2 (by decide)⟩

/-! ## Resizing (C8) -/

theorem containsClass_updateAt_self {f : Element → Element} {d : Doc} {i : Nat} {e : Element}
    (h : d[i]? = some e) (t : String) :
    containsClass (updateAt f i d) i t = (f e).hasClass t := by
  simp [containsClass, getElem?_updateAt_self, h]

theorem containsClass_updateAt_keep {f : Element → Element} (t : String)
    (hf : ∀ e, (f e).hasClass t = e.hasClass t) (d : Doc) (i j : Nat) :
    containsClass (updateAt f i d) j t = containsClass d j t := by
  unfold containsClass
  rw [getElem?_updateAt]
  by_cases hji : j = i
  · cases d[j]? <;> simp [hji, hf]
  · simp [hji]

/-- C8: a resize to a width above 768 with the menu open clears the open flag;
a resize to a width below 768 with the menu closed changes nothing, so the open
flag and the button icon stay as they were. -/
theorem handleResize_menu (win : Window) (w : World) (n : Nat)
    (hn : getElementById w.doc "mainNav" = some n) :
    (win.innerWidth > 768 → containsClass w.doc n "active" = true →
      containsClass (handleResize win w).world.doc n "active" = false) ∧
    (win.innerWidth < 768 → containsClass w.doc n "active" = false →
      handleResize win w = .normal w) := by
  obtain ⟨e, he, _⟩ := getElementById_some hn
  constructor
  · intro hw ho
    have hrem : containsClass (updateAt (Element.removeClass "active") n w.doc) n "active"
        = false := by
      rw [containsClass_updateAt_self he]; simp
    simp only [handleResize, hw, if_true, hn, ho, closeMobileMenu]
    cases hb : getElementById w.doc "mobileMenuBtn" with
    | none => simpa [Completion.world] using hrem
    | some b =>
      simp only [Completion.world]
      rw [containsClass_updateAt_keep "active" (hasClass_setInnerHTML iconBars "active")]
      exact hrem
  · intro hw _
    have : ¬ win.innerWidth > 768 := by linarith
    simp [handleResize, this]

/-- C8 at the sample document: the menu is opened, a resize to width 1024
closes it; on the closed menu a resize to width 500 changes nothing. -/
theorem handleResize_menu_witness :
    containsClass (handleResize (windowAt 0 0) (toggleMobileMenu sampleWorld).world).world.doc
      2 "active" = false ∧
    handleResize { windowAt 0 0 with innerWidth := 500 } sampleWorld = .normal sampleWorld :=
  ⟨(handleResize_menu (windowAt 0 0) (toggleMobileMenu sampleWorld).world 2 (by decide)).1
      (by decide) (by decide),
   (handleResize_menu { windowAt 0 0 with innerWidth := 500 } sampleWorld 2 (by decide)).2
      (by decide) (by decide)⟩

/-! ## The target id of a nav link (C10) -/

/-- C10 as stated fails: for the href `index.html#about`, which contains a `#`,
the fragment identifier is `about` but `handleNavigation` computes
`ndex.html#about`, and the click leaves the page `about` without the flag. -/
theorem targetIdOf_not_fragment :
    '#' ∈ "index.html#about".data ∧
    fragmentOf "index.html#about" = some "about" ∧
    targetIdOf "index.html#about" = "ndex.html#about" ∧
    containsClass (handleNavigation 4
      { doc := [ { blank with id := some "header" },
                 { blank with id := some "mobileMenuBtn", innerHTML := iconBars },
                 { blank with id := some "mainNav" },
                 { blank with id := some "about", classList := ["page"] },
                 { blank with classList := ["nav-link"], href := some "index.html#about" } ],
        alerts := [] }).world.doc 3 "active" = false := by
  decide

/-- C10, amended: for every href that begins with `#`, the target id that
`handleNavigation` computes is the fragment identifier, the portion after the
`#`. -/
theorem targetIdOf_eq_fragment (href : String) (rest : List Char)
    (h : href.data = '#' :: rest) :
    fragmentOf href = some (targetIdOf href) ∧ targetIdOf href = ⟨rest⟩ := by
  simp [fragmentOf, targetIdOf, substring1, h]

/-- C10, amended, at the href `#about`. -/
theorem targetIdOf_eq_fragment_witness :
    fragmentOf "#about" = some (targetIdOf "#about") ∧ targetIdOf "#about" = "about" :=
  targetIdOf_eq_fragment "#about" "about".data (by decide)

/-! ## The mobile menu (C4) -/

@[simp] theorem setInnerHTML_id (s : String) (e : Element) : (e.setInnerHTML s).id = e.id := rfl

@[simp] theorem setTransform_id (s : String) (e : Element) : (e.setTransform s).id = e.id := rfl

theorem getElementById_updateAt (f : Element → Element) (hf : ∀ e, (f e).id = e.id)
    (i : Nat) (d : Doc) (id : String) :
    getElementById (updateAt f i d) id = getElementById d id :=
  getElementById_congr id (map_id_updateAt f hf i d)

theorem getElementById_lt {d : Doc} {id : String} {i : Nat}
    (h : getElementById d id = some i) : i < d.length := by
  obtain ⟨e, he, _⟩ := getElementById_some h
  exact (List.getElem?_eq_some_iff.mp he).1

theorem containsClass_updateAt_toggle (d : Doc) (n : Nat) (t : String) (h : n < d.length) :
    containsClass (updateAt (Element.toggleClass t) n d) n t = !containsClass d n t := by
  have hn : d[n]? = some d[n] := List.getElem?_eq_getElem h
  rw [containsClass_updateAt_self hn, hasClass_toggleClass_self, containsClass_eq hn]

/-- The document after `toggleMobileMenu` when both elements exist. -/
theorem toggleMobileMenu_doc (w : World) (n b : Nat)
    (hn : getElementById w.doc "mainNav" = some n)
    (hb : getElementById w.doc "mobileMenuBtn" = some b) :
    (toggleMobileMenu w).world.doc =
      updateAt (Element.setInnerHTML
        (if containsClass w.doc n "active" then iconBars else iconTimes)) b
        (updateAt (Element.toggleClass "active") n w.doc) := by
  have hlt := getElementById_lt hn
  simp only [toggleMobileMenu, hn, hb, Completion.world, containsClass_updateAt_toggle _ _ _ hlt]
  cases containsClass w.doc n "active" <;> simp

/-- C4 as stated fails: with the menu closed and a button whose markup is the
text `Menu`, two calls of `toggleMobileMenu` leave the menu closed but the
button with the bars icon, not with `Menu`. -/
theorem toggleMobileMenu_twice_loses_markup :
    (([ { blank with id := some "mobileMenuBtn", innerHTML := "Menu" },
        { blank with id := some "mainNav" } ] : Doc)[0]?).map (·.innerHTML) = some "Menu" ∧
    ((toggleMobileMenu (toggleMobileMenu
      { doc := [ { blank with id := some "mobileMenuBtn", innerHTML := "Menu" },
                 { blank with id := some "mainNav" } ],
        alerts := [] }).world).world.doc[0]?).map (·.innerHTML) = some iconBars ∧
    iconBars ≠ "Menu" := by
  decide

/-- C4, amended: two calls of `toggleMobileMenu` in a row return the open flag
to what it was and leave the button with the icon that matches the flag (the
close icon when open, the bars icon when closed); so the button markup is
restored as well whenever it matched the flag before the first call. -/
theorem toggleMobileMenu_twice (w : World) (n b : Nat)
    (hn : getElementById w.doc "mainNav" = some n)
    (hb : getElementById w.doc "mobileMenuBtn" = some b) :
    containsClass (toggleMobileMenu (toggleMobileMenu w).world).world.doc n "active"
      = containsClass w.doc n "active" ∧
    ((toggleMobileMenu (toggleMobileMenu w).world).world.doc[b]?).map (·.innerHTML)
      = some (if containsClass w.doc n "active" then iconTimes else iconBars) ∧
    ((w.doc[b]?).map (·.innerHTML)
        = some (if containsClass w.doc n "active" then iconTimes else iconBars) →
      ((toggleMobileMenu (toggleMobileMenu w).world).world.doc[b]?).map (·.innerHTML)
        = (w.doc[b]?).map (·.innerHTML)) := by
  have hln := getElementById_lt hn
  have hlb := getElementById_lt hb
  have h1 := toggleMobileMenu_doc w n b hn hb
  have hn1 : getElementById (toggleMobileMenu w).world.doc "mainNav" = some n := by
    rw [h1, getElementById_updateAt _ (by simp), getElementById_updateAt _ (by simp), hn]
  have hb1 : getElementById (toggleMobileMenu w).world.doc "mobileMenuBtn" = some b := by
    rw [h1, getElementById_updateAt _ (by simp), getElementById_updateAt _ (by simp), hb]
  have hc1 : containsClass (toggleMobileMenu w).world.doc n "active"
      = !containsClass w.doc n "active" := by
    rw [h1, containsClass_updateAt_keep "active" (hasClass_setInnerHTML _ "active"),
      containsClass_updateAt_toggle _ _ _ hln]
  have h2 := toggleMobileMenu_doc (toggleMobileMenu w).world n b hn1 hb1
  have hl1 : (toggleMobileMenu w).world.doc.length = w.doc.length := by
    rw [h1]; simp
  have hflag : containsClass (toggleMobileMenu (toggleMobileMenu w).world).world.doc n "active"
      = containsClass w.doc n "active" := by
    rw [h2, containsClass_updateAt_keep "active" (hasClass_setInnerHTML _ "active"),
      containsClass_updateAt_toggle _ _ _ (by rw [hl1]; exact hln), hc1]
    simp
  have hicon : ((toggleMobileMenu (toggleMobileMenu w).world).world.doc[b]?).map (·.innerHTML)
      = some (if containsClass w.doc n "active" then iconTimes else iconBars) := by
    have hbb : b < (updateAt (Element.toggleClass "active") n
        (toggleMobileMenu w).world.doc).length := by
      rw [length_updateAt, hl1]; exact hlb
    rw [h2, getElem?_updateAt_self, List.getElem?_eq_getElem hbb, hc1]
    cases containsClass w.doc n "active" <;> simp [Element.setInnerHTML]
  exact ⟨hflag, hicon, fun h => by rw [hicon, h]⟩

/-- C4, amended, at the sample document, whose button starts with the bars
icon and whose menu starts closed. -/
theorem toggleMobileMenu_twice_witness :
    containsClass (toggleMobileMenu (toggleMobileMenu sampleWorld).world).world.doc 2 "active"
      = false ∧
    ((toggleMobileMenu (toggleMobileMenu sampleWorld).world).world.doc[1]?).map (·.innerHTML)
      = some iconBars :=
  ⟨(toggleMobileMenu_twice sampleWorld 2 1 (by decide) (by decide)).1,
   (toggleMobileMenu_twice sampleWorld 2 1 (by decide) (by decide)).2.1⟩

/-! ## Reveal on scroll (C6) -/

theorem getElem?_animateFrom (win : Window) (k i : Nat) (d : Doc) :
    (animateFrom win k d)[i]? = (d[i]?).map (fun e =>
      if isAnimated e && decide (win.top (k + i) < screenPosition win) then reveal e else e) := by
  induction d generalizing k i with
  | nil => simp [animateFrom]
  | cons e es ih =>
    cases i with
    | zero => simp [animateFrom]
    | succ i =>
      simp only [animateFrom, List.getElem?_cons_succ, ih]
      have : k + 1 + i = k + (i + 1) := by omega
      rw [this]

/-- C6: after `animateOnScroll`, an animated element (service card, feature
card or portfolio item) whose top offset is below `innerHeight / 1.2` has
opacity `1` and the transform `translateY(0)`; one whose top offset is at or
beyond that threshold is left as it was, so it retains opacity `0` and the
initial `translateY(30px)` offset. -/
theorem animateOnScroll_threshold (win : Window) (w : World) (i : Nat) (e : Element)
    (he : w.doc[i]? = some e) (hc : isAnimated e = true) :
    (win.top i < win.innerHeight / 1.2 →
      ∃ e', (animateOnScroll win w).doc[i]? = some e' ∧
        e'.style.opacity = "1" ∧ e'.style.transform = "translateY(0)") ∧
    (win.innerHeight / 1.2 ≤ win.top i →
      (animateOnScroll win w).doc[i]? = some e ∧
      (e.style.opacity = "0" → e.style.transform = "translateY(30px)" →
        ∃ e', (animateOnScroll win w).doc[i]? = some e' ∧
          e'.style.opacity = "0" ∧ e'.style.transform = "translateY(30px)")) := by
  have key := getElem?_animateFrom win 0 i w.doc
  rw [he] at key
  simp only [Nat.zero_add, Option.map_some', hc, Bool.true_and] at key
  constructor
  · intro hlt
    have hlt' : win.top i < screenPosition win := hlt
    refine ⟨reveal e, ?_, rfl, rfl⟩
    simp [animateOnScroll, key, hlt']
  · intro hge
    have hge' : ¬ win.top i < screenPosition win := not_lt.mpr hge
    have hsame : (animateOnScroll win w).doc[i]? = some e := by
      simp [animateOnScroll, key, hge']
    exact ⟨hsame, fun h1 h2 => ⟨e, hsame, h1, h2⟩⟩

/-- C6 on the sample document after `setupAnimations`, in a window 600 high
(threshold 500): the service card at index 7 is revealed at top offset 499 and
keeps opacity `0` and the 30px offset at top offset 500. -/
theorem animateOnScroll_threshold_witness :
    (∃ e', (animateOnScroll (windowAt 0 499)
        { sampleWorld with doc := setupAnimations sampleDoc }).doc[7]? = some e' ∧
      e'.style.opacity = "1" ∧ e'.style.transform = "translateY(0)") ∧
    (∃ e', (animateOnScroll (windowAt 0 500)
        { sampleWorld with doc := setupAnimations sampleDoc }).doc[7]? = some e' ∧
      e'.style.opacity = "0" ∧ e'.style.transform = "translateY(30px)") :=
  ⟨(animateOnScroll_threshold (windowAt 0 499)
      { sampleWorld with doc := setupAnimations sampleDoc } 7
      { blank with classList := ["service-card"],
                   style := { opacity := "0", transform := "translateY(30px)",
                              transition := "opacity 0.8s ease, transform 0.8s ease" } }
      (by decide) (by decide)).1 (by norm_num [windowAt]),
   ((animateOnScroll_threshold (windowAt 0 500)
      { sampleWorld with doc := setupAnimations sampleDoc } 7
      { blank with classList := ["service-card"],
                   style := { opacity := "0", transform := "translateY(30px)",
                              transition := "opacity 0.8s ease, transform 0.8s ease" } }
      (by decide) (by decide)).2 (by norm_num [windowAt])).2 rfl rfl⟩

/-! ## Showing a page (C3) -/

theorem indicesWhere_eq_nil (p : Element → Bool) (d : Doc) (h : ∀ e ∈ d, p e = false) :
    indicesWhere p d = [] := by
  induction d with
  | nil => rfl
  | cons e es ih =>
    have h1 : p e = false := h e (List.mem_cons_self _ _)
    have h2 := ih (fun x hx => h x (List.mem_cons_of_mem _ hx))
    simp [indicesWhere, h1, h2]

theorem indicesWhere_updateAt_singleton (p : Element → Bool) (f : Element → Element)
    (d : Doc) (t : Nat) (e : Element) (h : ∀ x ∈ d, p x = false) (ht : d[t]? = some e)
    (hp : p (f e) = true) : indicesWhere p (updateAt f t d) = [t] := by
  induction d generalizing t with
  | nil => simp at ht
  | cons x xs ih =>
    have hx : p x = false := h x (List.mem_cons_self _ _)
    have hxs : ∀ y ∈ xs, p y = false := fun y hy => h y (List.mem_cons_of_mem _ hy)
    cases t with
    | zero =>
      simp only [List.getElem?_cons_zero, Option.some.injEq] at ht
      subst ht
      simp [updateAt, indicesWhere, hp, indicesWhere_eq_nil p xs hxs]
    | succ t =>
      simp only [List.getElem?_cons_succ] at ht
      simp [updateAt, indicesWhere, hx, ih t hxs ht]

theorem indicesWhere_congr (p : Element → Bool) {d d' : Doc} (h : d.map p = d'.map p) :
    indicesWhere p d = indicesWhere p d' := by
  induction d generalizing d' with
  | nil => cases d' <;> simp_all [indicesWhere]
  | cons e es ih =>
    cases d' with
    | nil => simp at h
    | cons e' es' =>
      simp only [List.map_cons, List.cons.injEq] at h
      simp [indicesWhere, h.1, ih h.2]

theorem getElem?_forEachWhere (p : Element → Bool) (f : Element → Element) (d : Doc) (i : Nat) :
    (forEachWhere p f d)[i]? = (d[i]?).map (fun e => if p e then f e else e) := by
  simp [forEachWhere]

theorem getElementById_forEachWhere (p : Element → Bool) (f : Element → Element)
    (hf : ∀ e, (f e).id = e.id) (d : Doc) (id : String) :
    getElementById (forEachWhere p f d) id = getElementById d id :=
  getElementById_congr id (map_id_forEachWhere p f hf d)

theorem isPage_addClass_active (e : Element) : isPage (e.addClass "active") = isPage e :=
  hasClass_addClass_of_ne (by decide) e

theorem isPage_removeClass_active (e : Element) : isPage (e.removeClass "active") = isPage e :=
  hasClass_removeClass_of_ne (by decide) e

theorem isNavLink_addClass_active (e : Element) :
    isNavLink (e.addClass "active") = isNavLink e :=
  hasClass_addClass_of_ne (by decide) e

theorem isNavLink_removeClass_active (e : Element) :
    isNavLink (e.removeClass "active") = isNavLink e :=
  hasClass_removeClass_of_ne (by decide) e

/-- After the first loop of `setActivePage` no page section carries the flag. -/
theorem no_active_page_after_hide (d : Doc) :
    ∀ x ∈ forEachWhere isPage (Element.removeClass "active") d,
      (isPage x && x.hasClass "active") = false := by
  intro x hx
  simp only [forEachWhere, List.mem_map] at hx
  obtain ⟨e, _, rfl⟩ := hx
  by_cases hp : isPage e = true
  · simp [hp]
  · simp [hp]

/-- The document `setActivePage` leaves when the id resolves to the element at
index `t`. -/
theorem setActivePage_of_some (d : Doc) (id : String) (t : Nat)
    (ht : getElementById d id = some t) :
    setActivePage id d = updateAt (Element.addClass "active") t
      (forEachWhere isPage (Element.removeClass "active") d) := by
  simp [setActivePage, getElementById_forEachWhere _ _ (removeClass_id "active"), ht]

/-- When the id resolves to a page section, that section is the only visible
one after `setActivePage`. -/
theorem activePages_setActivePage (d : Doc) (id : String) (t : Nat)
    (ht : getElementById d id = some t) (hp : containsClass d t "page" = true) :
    activePages (setActivePage id d) = [t] := by
  obtain ⟨e, he, _⟩ := getElementById_some ht
  have hpe : isPage e = true := by rw [containsClass_eq he] at hp; exact hp
  have hd1 : (forEachWhere isPage (Element.removeClass "active") d)[t]?
      = some (e.removeClass "active") := by
    simp [getElem?_forEachWhere, he, hpe]
  have hpage : isPage ((e.removeClass "active").addClass "active") = true := by
    rw [isPage_addClass_active, isPage_removeClass_active, hpe]
  rw [setActivePage_of_some d id t ht]
  exact indicesWhere_updateAt_singleton _ _ _ t _ (no_active_page_after_hide d) hd1
    (by simp [hpage])

/-- C3 as stated fails: an id can exist without naming a page section.  On the
sample document `setActivePage "header"` finds the header, which is no page
section, and leaves no page section with the flag.  On `duplicateIdDoc` the id
`about` is carried by a page section, but `getElementById` returns the anchor
before it, and again no page section carries the flag afterwards. -/
theorem setActivePage_on_other_element :
    (getElementById sampleDoc "header" = some 0 ∧
      containsClass sampleDoc 0 "page" = false ∧
      activePages sampleDoc = [5] ∧
      activePages (setActivePage "header" sampleDoc) = [] ∧
      (activePages (setActivePage "header" sampleDoc)).length ≠ 1) ∧
    (getElementById duplicateIdDoc "about" = some 3 ∧
      containsClass duplicateIdDoc 3 "page" = false ∧
      (duplicateIdDoc[5]?).map (·.id) = some (some "about") ∧
      containsClass duplicateIdDoc 5 "page" = true ∧
      activePages (setActivePage "about" duplicateIdDoc) = [] ∧
      (activePages (setActivePage "about" duplicateIdDoc)).length ≠ 1) := by
  decide

/-- C3, amended: when `getElementById` resolves the id to a page section (the
first element in document order with that id is a page section), after
`setActivePage id` the page sections that carry the visibility flag are exactly
that one section, and its identifier is `id`. -/
theorem setActivePage_exactly_one (d : Doc) (id : String) (t : Nat)
    (ht : getElementById d id = some t) (hp : containsClass d t "page" = true) :
    activePages (setActivePage id d) = [t] ∧
    (activePages (setActivePage id d)).length = 1 ∧
    ∃ e, (setActivePage id d)[t]? = some e ∧ e.id = some id ∧
      isPage e = true ∧ e.hasClass "active" = true := by
  obtain ⟨e, he, hid⟩ := getElementById_some ht
  have hpe : isPage e = true := by rw [containsClass_eq he] at hp; exact hp
  have hd1 : (forEachWhere isPage (Element.removeClass "active") d)[t]?
      = some (e.removeClass "active") := by
    simp [getElem?_forEachWhere, he, hpe]
  have hpage : isPage ((e.removeClass "active").addClass "active") = true := by
    rw [isPage_addClass_active, isPage_removeClass_active, hpe]
  have h1 : activePages (setActivePage id d) = [t] := activePages_setActivePage d id t ht hp
  refine ⟨h1, by rw [h1]; rfl, (e.removeClass "active").addClass "active", ?_, ?_, hpage, ?_⟩
  · rw [setActivePage_of_some d id t ht, getElem?_updateAt_self, hd1]; rfl
  · simp [hid]
  · simp

/-- C3, amended, at the sample document: `setActivePage "about"` leaves the
section at index 6, whose id is `about`, as the only visible one. -/
theorem setActivePage_exactly_one_witness :
    activePages sampleDoc = [5] ∧ activePages (setActivePage "about" sampleDoc) = [6] :=
  ⟨by decide, (setActivePage_exactly_one sampleDoc "about" 6 (by decide) (by decide)).1⟩

/-! ## Navigation: what a click keeps -/

theorem map_updateAt_congr {β : Type} (p : Element → β) (f : Element → Element) (i : Nat)
    (d : Doc) (h : ∀ e, d[i]? = some e → p (f e) = p e) :
    (updateAt f i d).map p = d.map p := by
  induction d generalizing i with
  | nil => simp [updateAt]
  | cons x xs ih =>
    cases i with
    | zero => simp [updateAt, h x (by simp)]
    | succ i =>
      simp only [updateAt, List.map_cons, List.cons.injEq, true_and]
      exact ih i (fun e he => h e (by simpa using he))

theorem map_forEachWhere_congr {β : Type} (p : Element → β) (q : Element → Bool)
    (f : Element → Element) (d : Doc) (h : ∀ e ∈ d, q e = true → p (f e) = p e) :
    (forEachWhere q f d).map p = d.map p := by
  unfold forEachWhere
  rw [List.map_map]
  apply List.map_congr_left
  intro e he
  simp only [Function.comp]
  by_cases hq : q e = true
  · simp [hq, h e he hq]
  · simp [hq]

theorem roleKey_addClass_active (e : Element) : roleKey (e.addClass "active") = roleKey e := by
  have h1 : (e.addClass "active").href = e.href := by
    unfold Element.addClass; split <;> rfl
  simp [roleKey, isPage_addClass_active, isNavLink_addClass_active, h1]

theorem roleKey_removeClass_active (e : Element) :
    roleKey (e.removeClass "active") = roleKey e := by
  have h1 : (e.removeClass "active").href = e.href := rfl
  simp [roleKey, isPage_removeClass_active, isNavLink_removeClass_active, h1]

theorem roleKey_setInnerHTML (s : String) (e : Element) :
    roleKey (e.setInnerHTML s) = roleKey e := rfl

/-- The document `closeMobileMenu` leaves agrees with the one it found on
every observation `p` that neither the removal of `active` from the navigation
container nor a change of markup affects. -/
theorem closeMobileMenu_map {β : Type} (p : Element → β) (w : World)
    (hrm : ∀ n e, getElementById w.doc "mainNav" = some n → w.doc[n]? = some e →
      p (e.removeClass "active") = p e)
    (hin : ∀ s e, p (Element.setInnerHTML s e) = p e) :
    (closeMobileMenu w).world.doc.map p = w.doc.map p := by
  unfold closeMobileMenu
  cases hn : getElementById w.doc "mainNav" with
  | none => rfl
  | some n =>
    by_cases hc : containsClass w.doc n "active" = true
    · have h1 : (updateAt (Element.removeClass "active") n w.doc).map p = w.doc.map p :=
        map_updateAt_congr p _ n w.doc (fun e he => hrm n e hn he)
      cases hb : getElementById w.doc "mobileMenuBtn" with
      | none => simpa [hc, Completion.world] using h1
      | some b =>
        simp only [hc, if_true, Completion.world]
        rw [map_updateAt_congr p _ b _ (fun e _ => hin iconBars e), h1]
    · simp [hc, Completion.world]

theorem setActivePage_roleKey (id : String) (d : Doc) :
    (setActivePage id d).map roleKey = d.map roleKey := by
  have h1 : (forEachWhere isPage (Element.removeClass "active") d).map roleKey
      = d.map roleKey :=
    map_forEachWhere_congr roleKey _ _ d (fun e _ _ => roleKey_removeClass_active e)
  unfold setActivePage
  simp only
  split
  · rw [map_updateAt_congr roleKey _ _ _ (fun e _ => roleKey_addClass_active e), h1]
  · exact h1

theorem updateActiveNavLink_roleKey (link : Nat) (d : Doc) :
    (updateActiveNavLink link d).map roleKey = d.map roleKey := by
  unfold updateActiveNavLink
  rw [map_updateAt_congr roleKey _ _ _ (fun e _ => roleKey_addClass_active e)]
  exact map_forEachWhere_congr roleKey _ _ d (fun e _ _ => roleKey_removeClass_active e)

/-- The state a click leaves, for a link that has an href. -/
theorem handleNavigation_world (link : Nat) (w : World) (e : Element) (href : String)
    (he : w.doc[link]? = some e) (hh : e.href = some href) :
    (handleNavigation link w).world =
      (closeMobileMenu
        ⟨updateActiveNavLink link (setActivePage (targetIdOf href) w.doc), w.alerts⟩).world := by
  simp [handleNavigation, he, hh]

/-- A click changes no id, no href and no membership of `.page` or `.nav-link`. -/
theorem handleNavigation_roleKey (link : Nat) (w : World) :
    (handleNavigation link w).world.doc.map roleKey = w.doc.map roleKey := by
  cases he : w.doc[link]? with
  | none => simp [handleNavigation, he, Completion.world]
  | some e =>
    cases hh : e.href with
    | none => simp [handleNavigation, he, hh, Completion.world]
    | some href =>
      rw [handleNavigation_world link w e href he hh,
        closeMobileMenu_map roleKey _ (fun _ e _ _ => roleKey_removeClass_active e)
          (fun s e => roleKey_setInnerHTML s e)]
      simp only
      rw [updateActiveNavLink_roleKey, setActivePage_roleKey]

theorem runClicks_roleKey (links : List Nat) (w : World) :
    (runClicks w links).doc.map roleKey = w.doc.map roleKey := by
  induction links generalizing w with
  | nil => rfl
  | cons l ls ih =>
    simp only [runClicks, List.foldl_cons] at ih ⊢
    rw [ih, handleNavigation_roleKey]

theorem roleKey_getElem? {d d' : Doc} (h : d.map roleKey = d'.map roleKey) (i : Nat) :
    (d[i]?).map roleKey = (d'[i]?).map roleKey := by
  have := congrArg (fun l => l[i]?) h
  simpa [List.getElem?_map] using this

/-- Documents with the same role keys have, at every index, elements with the
same role key. -/
theorem roleKey_transfer {d d' : Doc} (h : d.map roleKey = d'.map roleKey) {i : Nat}
    {e : Element} (he : d[i]? = some e) : ∃ e', d'[i]? = some e' ∧ roleKey e' = roleKey e := by
  have := roleKey_getElem? h i
  rw [he] at this
  cases h' : d'[i]? with
  | none => simp [h'] at this
  | some e' =>
    simp only [h', Option.map_some', Option.some.injEq] at this
    exact ⟨e', rfl, this.symm⟩

theorem map_id_of_roleKey {d d' : Doc} (h : d.map roleKey = d'.map roleKey) :
    d.map (·.id) = d'.map (·.id) := by
  have := congrArg (List.map Prod.fst) h
  simpa [List.map_map, Function.comp, roleKey] using this

theorem isPage_of_roleKey {e e' : Element} (h : roleKey e' = roleKey e) : isPage e' = isPage e :=
  congrArg (fun k => k.2.2.1) h

theorem isNavLink_of_roleKey {e e' : Element} (h : roleKey e' = roleKey e) :
    isNavLink e' = isNavLink e :=
  congrArg (fun k => k.2.2.2) h

theorem id_of_roleKey {e e' : Element} (h : roleKey e' = roleKey e) : e'.id = e.id :=
  congrArg (fun k => k.1) h

theorem href_of_roleKey {e e' : Element} (h : roleKey e' = roleKey e) : e'.href = e.href :=
  congrArg (fun k => k.2.1) h

theorem roleOk_of_roleKey {e e' : Element} (h : roleKey e' = roleKey e) :
    roleOk e' = roleOk e := by
  simp [roleOk, isPage_of_roleKey h, isNavLink_of_roleKey h, id_of_roleKey h]

theorem rolesApart_congr {d d' : Doc} (h : d.map roleKey = d'.map roleKey) :
    rolesApart d = rolesApart d' := by
  induction d generalizing d' with
  | nil => cases d' <;> simp_all [rolesApart]
  | cons e es ih =>
    cases d' with
    | nil => simp at h
    | cons e' es' =>
      simp only [List.map_cons, List.cons.injEq] at h
      have := ih h.2
      simp only [rolesApart, List.all_cons] at this ⊢
      rw [this, roleOk_of_roleKey h.1]

theorem containsClass_page_congr {d d' : Doc} (h : d.map roleKey = d'.map roleKey) (t : Nat) :
    containsClass d t "page" = containsClass d' t "page" := by
  cases he : d[t]? with
  | none =>
    have := roleKey_getElem? h t
    rw [he] at this
    cases he' : d'[t]? with
    | none => simp [containsClass, he, he']
    | some e' => simp [he'] at this
  | some e =>
    obtain ⟨e', he', hk⟩ := roleKey_transfer h he
    rw [containsClass_eq he, containsClass_eq he']
    exact (isPage_of_roleKey hk).symm

theorem validClick_congr {d d' : Doc} (h : d.map roleKey = d'.map roleKey) (link : Nat) :
    validClick d link = validClick d' link := by
  have hid := map_id_of_roleKey h
  unfold validClick
  cases he : d[link]? with
  | none =>
    have := roleKey_getElem? h link
    rw [he] at this
    cases he' : d'[link]? with
    | none => rfl
    | some e' => simp [he'] at this
  | some e =>
    obtain ⟨e', he', hk⟩ := roleKey_transfer h he
    simp only [he']
    rw [isNavLink_of_roleKey hk, href_of_roleKey hk]
    cases e.href with
    | none => rfl
    | some href =>
      simp only
      rw [getElementById_congr _ hid]
      cases getElementById d' (targetIdOf href) with
      | none => rfl
      | some t => simp only; rw [containsClass_page_congr h t]

theorem roleOk_nav {x : Element} (h : roleOk x = true) (hn : isNavLink x = true) :
    isPage x = false := by
  simp [roleOk, hn] at h
  simpa using h.1

theorem roleOk_mainNav {x : Element} (h : roleOk x = true) (hid : x.id = some "mainNav") :
    isPage x = false ∧ isNavLink x = false := by
  simp [roleOk, hid] at h
  exact h.2

theorem rolesApart_getElem? {d : Doc} (h : rolesApart d = true) {i : Nat} {x : Element}
    (hx : d[i]? = some x) : roleOk x = true :=
  List.all_eq_true.mp h x (List.getElem?_mem hx)

/-- After the first loop of `updateActiveNavLink` no nav link carries the flag. -/
theorem no_active_link_after_hide (d : Doc) :
    ∀ x ∈ forEachWhere isNavLink (Element.removeClass "active") d,
      (isNavLink x && x.hasClass "active") = false := by
  intro x hx
  simp only [forEachWhere, List.mem_map] at hx
  obtain ⟨e, _, rfl⟩ := hx
  by_cases hp : isNavLink e = true
  · simp [hp]
  · simp [hp]

/-! ## One page and one link after each click (C1) -/

/-- One valid click, in a document whose roles are apart: the target page is
the only visible page and the clicked link the only active link. -/
theorem click_exactly_one (w : World) (link : Nat) (hr : rolesApart w.doc = true)
    (hv : validClick w.doc link = true) :
    (∃ t, activePages (handleNavigation link w).world.doc = [t]) ∧
    activeNavLinks (handleNavigation link w).world.doc = [link] := by
  unfold validClick at hv
  cases he : w.doc[link]? with
  | none => simp [he] at hv
  | some e =>
    simp only [he, Bool.and_eq_true] at hv
    obtain ⟨hnav, hv⟩ := hv
    cases hh : e.href with
    | none => simp [hh] at hv
    | some href =>
      simp only [hh] at hv
      cases ht : getElementById w.doc (targetIdOf href) with
      | none => simp [ht] at hv
      | some t =>
        simp only [ht] at hv
        -- the three stages of the handler
        have hk1 := setActivePage_roleKey (targetIdOf href) w.doc
        have hr1 : rolesApart (setActivePage (targetIdOf href) w.doc) = true := by
          rw [rolesApart_congr hk1]; exact hr
        have hkX : (forEachWhere isNavLink (Element.removeClass "active")
            (setActivePage (targetIdOf href) w.doc)).map roleKey = w.doc.map roleKey := by
          rw [map_forEachWhere_congr roleKey _ _ _ (fun e _ _ => roleKey_removeClass_active e)]
          exact hk1
        have hk2 := (updateActiveNavLink_roleKey link
          (setActivePage (targetIdOf href) w.doc)).trans hk1
        have hr2 : rolesApart (updateActiveNavLink link
            (setActivePage (targetIdOf href) w.doc)) = true := by
          rw [rolesApart_congr hk2]; exact hr
        obtain ⟨x, hx, hxk⟩ := roleKey_transfer hkX.symm he
        have hxnav : isNavLink x = true := by rw [isNavLink_of_roleKey hxk]; exact hnav
        have hxpage : isPage x = false := by
          rw [isPage_of_roleKey hxk]
          exact roleOk_nav (rolesApart_getElem? hr he) hnav
        -- pages
        have hp2 : activePages (updateActiveNavLink link
            (setActivePage (targetIdOf href) w.doc)) = [t] := by
          rw [← activePages_setActivePage w.doc (targetIdOf href) t ht hv]
          apply indicesWhere_congr
          unfold updateActiveNavLink
          rw [map_updateAt_congr _ _ _ _ (fun y hy => by
            rw [hx] at hy; cases hy
            simp [isPage_addClass_active, hxpage])]
          apply map_forEachWhere_congr
          intro y hy hyn
          have : isPage y = false :=
            roleOk_nav (List.all_eq_true.mp hr1 y hy) hyn
          simp [isPage_removeClass_active, this]
        -- links
        have hl2 : activeNavLinks (updateActiveNavLink link
            (setActivePage (targetIdOf href) w.doc)) = [link] := by
          unfold updateActiveNavLink activeNavLinks
          exact indicesWhere_updateAt_singleton _ _ _ link x (no_active_link_after_hide _) hx
            (by simp [isNavLink_addClass_active, hxnav])
        -- closing the menu touches neither
        have hmain : ∀ n y, getElementById (updateActiveNavLink link
            (setActivePage (targetIdOf href) w.doc)) "mainNav" = some n →
            (updateActiveNavLink link (setActivePage (targetIdOf href) w.doc))[n]? = some y →
            isPage y = false ∧ isNavLink y = false := by
          intro n y hn hy
          obtain ⟨y', hy', hid⟩ := getElementById_some hn
          rw [hy] at hy'; cases hy'
          exact roleOk_mainNav (rolesApart_getElem? hr2 hy) hid
        rw [handleNavigation_world link w e href he hh]
        constructor
        · refine ⟨t, ?_⟩
          rw [← hp2]
          apply indicesWhere_congr
          apply closeMobileMenu_map
          · intro n y hn hy
            simp [isPage_removeClass_active, (hmain n y hn hy).1]
          · intro s y; rfl
        · rw [← hl2]
          apply indicesWhere_congr
          apply closeMobileMenu_map
          · intro n y hn hy
            simp [isNavLink_removeClass_active, (hmain n y hn hy).2]
          · intro s y; rfl

theorem runClicks_append (w : World) (ls : List Nat) (l : Nat) :
    runClicks w (ls ++ [l]) = (handleNavigation l (runClicks w ls)).world := by
  simp [runClicks, List.foldl_append]

/-- C1 as stated fails, in two ways.  In `pathHrefDoc` the link at index 5 has
the href `index.html#about`, whose fragment `about` is the id of a page
section, and after a click on it no page section carries the flag.  In
`sharedRoleDoc`, where the element with id `about` is both a page section and a
nav link, the link at index 4 has the href `#about`, and after a click on it no
page section carries the flag either. -/
theorem valid_click_without_active_page :
    (fragmentOf "index.html#about" = some "about" ∧
      getElementById pathHrefDoc "about" = some 4 ∧
      containsClass pathHrefDoc 4 "page" = true ∧
      activePages pathHrefDoc = [3] ∧
      activePages (handleNavigation 5 { doc := pathHrefDoc, alerts := [] }).world.doc = []) ∧
    (validClick sharedRoleDoc 4 = true ∧
      activePages sharedRoleDoc = [3] ∧
      activePages (handleNavigation 4 { doc := sharedRoleDoc, alerts := [] }).world.doc = [] ∧
      (activePages (handleNavigation 4
        { doc := sharedRoleDoc, alerts := [] }).world.doc).length ≠ 1) := by
  decide

/-- C1, amended: in a document where no element is both a page section and a
nav link and the navigation container is neither, for every sequence of clicks
on nav links whose target id (the href without its first character, the
fragment of an href of the form `#id`) resolves to a page section, after each
click (after every non-empty prefix of the sequence) exactly one page section
carries the visibility flag and exactly one nav link carries the active flag. -/
theorem clicks_exactly_one (w : World) (clicks : List Nat)
    (hr : rolesApart w.doc = true) (hv : ∀ l ∈ clicks, validClick w.doc l = true)
    (k : Nat) (hk0 : 0 < k) (hk : k ≤ clicks.length) :
    (activePages (runClicks w (clicks.take k)).doc).length = 1 ∧
    (activeNavLinks (runClicks w (clicks.take k)).doc).length = 1 := by
  obtain ⟨k', rfl⟩ : ∃ k', k = k' + 1 := ⟨k - 1, by omega⟩
  have hlt : k' < clicks.length := by omega
  have htake : clicks.take (k' + 1) = clicks.take k' ++ [clicks[k']] := by
    rw [List.take_succ, List.getElem?_eq_getElem hlt]; rfl
  rw [htake, runClicks_append]
  have hkeys := runClicks_roleKey (clicks.take k') w
  have hr' : rolesApart (runClicks w (clicks.take k')).doc = true := by
    rw [rolesApart_congr hkeys]; exact hr
  have hv' : validClick (runClicks w (clicks.take k')).doc clicks[k'] = true := by
    rw [validClick_congr hkeys]; exact hv _ (List.getElem_mem _)
  obtain ⟨⟨t, h1⟩, h2⟩ := click_exactly_one _ _ hr' hv'
  rw [h1, h2]
  exact ⟨rfl, rfl⟩

/-- C1, amended, at the sample document: after the clicks on `#about`, `#home`
and `#about` one page and one link are active. -/
theorem clicks_exactly_one_witness :
    (activePages (runClicks sampleWorld ([4, 3, 4].take 3)).doc).length = 1 ∧
    (activeNavLinks (runClicks sampleWorld ([4, 3, 4].take 3)).doc).length = 1 :=
  clicks_exactly_one sampleWorld [4, 3, 4] (by decide) (by decide) 3 (by decide) (by decide)

/-! ## A click on a link without a page (C2) -/

theorem indicesWhere_nil_forall (p : Element → Bool) (d : Doc) (h : indicesWhere p d = []) :
    ∀ x ∈ d, p x = false := by
  induction d with
  | nil => intro x hx; cases hx
  | cons e es ih =>
    simp only [indicesWhere, List.append_eq_nil, List.map_eq_nil_iff] at h
    have he : p e = false := by
      cases hp : p e with
      | false => rfl
      | true => simp [hp] at h
    intro x hx
    rcases List.mem_cons.mp hx with rfl | hx'
    · exact he
    · exact ih h.2 x hx'

theorem closeMobileMenu_containsClass (w : World) (i : Nat) (t : String)
    (h : getElementById w.doc "mainNav" ≠ some i) :
    containsClass (closeMobileMenu w).world.doc i t = containsClass w.doc i t := by
  unfold closeMobileMenu
  cases hn : getElementById w.doc "mainNav" with
  | none => rfl
  | some n =>
    have hne : i ≠ n := fun hin => h (by rw [hn, hin])
    have h1 : containsClass (updateAt (Element.removeClass "active") n w.doc) i t
        = containsClass w.doc i t := by
      simp [containsClass, getElem?_updateAt_of_ne _ hne]
    by_cases hc : containsClass w.doc n "active" = true
    · cases hb : getElementById w.doc "mobileMenuBtn" with
      | none => simpa [hc, Completion.world] using h1
      | some b =>
        simp only [hc, if_true, Completion.world]
        rw [containsClass_updateAt_keep t (hasClass_setInnerHTML iconBars t), h1]
    · simp [hc, Completion.world]

/-- C2 as stated fails: in the sample document the page `home` is visible, the
link at index 14 points to `#team` and no element has the id `team`; after a
click on that link `home` has lost the flag and no page section carries it,
while the link is marked active. -/
theorem click_unknown_target_hides_previous :
    containsClass sampleDoc 5 "active" = true ∧
    getElementById sampleDoc "team" = none ∧
    containsClass (handleNavigation 14 sampleWorld).world.doc 5 "active" = false ∧
    activePages (handleNavigation 14 sampleWorld).world.doc = [] ∧
    containsClass (handleNavigation 14 sampleWorld).world.doc 14 "active" = true := by
  decide

/-- C2, amended: a click on a nav link (itself neither a page section nor the
navigation container) whose target id matches no page id removes the
visibility flag from every page section, so that no page section carries it
afterwards, and marks the clicked link active; it is then the only active
nav link. -/
theorem click_unknown_target (w : World) (link : Nat) (e : Element) (href : String)
    (he : w.doc[link]? = some e) (hnav : isNavLink e = true) (hh : e.href = some href)
    (hnp : isPage e = false) (hmain : e.id ≠ some "mainNav")
    (hno : ∀ p ∈ w.doc, isPage p = true → p.id ≠ some (targetIdOf href)) :
    activePages (handleNavigation link w).world.doc = [] ∧
    containsClass (handleNavigation link w).world.doc link "active" = true ∧
    activeNavLinks (handleNavigation link w).world.doc = [link] := by
  -- after `setActivePage` no page is visible
  have h1 : activePages (setActivePage (targetIdOf href) w.doc) = [] := by
    have hd1 : activePages (forEachWhere isPage (Element.removeClass "active") w.doc) = [] :=
      indicesWhere_eq_nil _ _ (no_active_page_after_hide w.doc)
    unfold setActivePage
    simp only
    cases ht : getElementById (forEachWhere isPage (Element.removeClass "active") w.doc)
        (targetIdOf href) with
    | none => exact hd1
    | some t =>
      simp only
      rw [← hd1]
      apply indicesWhere_congr
      apply map_updateAt_congr
      intro x hx
      obtain ⟨x', hx', hid⟩ := getElementById_some ht
      rw [hx] at hx'; cases hx'
      have hmem := List.getElem?_mem hx
      simp only [forEachWhere, List.mem_map] at hmem
      obtain ⟨e0, he0, rfl⟩ := hmem
      have hp0 : isPage e0 = false := by
        cases hp : isPage e0 with
        | false => rfl
        | true =>
          exfalso
          apply hno e0 he0 hp
          simpa [hp] using hid
      simp [hp0, isPage_addClass_active]
  have hk1 := setActivePage_roleKey (targetIdOf href) w.doc
  have hkX : (forEachWhere isNavLink (Element.removeClass "active")
      (setActivePage (targetIdOf href) w.doc)).map roleKey = w.doc.map roleKey := by
    rw [map_forEachWhere_congr roleKey _ _ _ (fun e _ _ => roleKey_removeClass_active e)]
    exact hk1
  have hk2 := (updateActiveNavLink_roleKey link
    (setActivePage (targetIdOf href) w.doc)).trans hk1
  obtain ⟨x, hx, hxk⟩ := roleKey_transfer hkX.symm he
  have hxpage : isPage x = false := by rw [isPage_of_roleKey hxk]; exact hnp
  -- nor after `updateActiveNavLink`
  have h2 : activePages (updateActiveNavLink link
      (setActivePage (targetIdOf href) w.doc)) = [] := by
    rw [← h1]
    apply indicesWhere_congr
    unfold updateActiveNavLink
    rw [map_updateAt_congr _ _ _ _ (fun y hy => by
      rw [hx] at hy; cases hy
      simp [isPage_addClass_active, hxpage])]
    apply map_forEachWhere_congr
    intro y hy _
    have := indicesWhere_nil_forall _ _ h1 y hy
    simp only [Bool.and_eq_false_imp] at this
    cases hp : isPage y with
    | false => simp [isPage_removeClass_active, hp]
    | true => simp [isPage_removeClass_active, hp, this hp]
  have hl2 : containsClass (updateActiveNavLink link
      (setActivePage (targetIdOf href) w.doc)) link "active" = true := by
    unfold updateActiveNavLink
    rw [containsClass_updateAt_self hx]; simp
  have hne : getElementById (updateActiveNavLink link
      (setActivePage (targetIdOf href) w.doc)) "mainNav" ≠ some link := by
    intro hn
    obtain ⟨y, hy, hid⟩ := getElementById_some hn
    obtain ⟨y', hy', hyk⟩ := roleKey_transfer hk2.symm he
    rw [hy] at hy'; cases hy'
    exact hmain (by rw [← id_of_roleKey hyk]; exact hid)
  rw [handleNavigation_world link w e href he hh]
  constructor
  · rw [← h2]
    apply indicesWhere_congr
    apply closeMobileMenu_map
    · intro n y _ hy
      have := indicesWhere_nil_forall _ _ h2 y (List.getElem?_mem hy)
      simp only [Bool.and_eq_false_imp] at this
      cases hp : isPage y with
      | false => simp [isPage_removeClass_active, hp]
      | true => simp [isPage_removeClass_active, hp, this hp]
    · intro s y; rfl
  refine ⟨?_, ?_⟩
  · rw [closeMobileMenu_containsClass _ _ _ hne]
    exact hl2
  · have hxnav : isNavLink x = true := by rw [isNavLink_of_roleKey hxk]; exact hnav
    have hl3 : activeNavLinks (updateActiveNavLink link
        (setActivePage (targetIdOf href) w.doc)) = [link] := by
      unfold updateActiveNavLink activeNavLinks
      exact indicesWhere_updateAt_singleton _ _ _ link x (no_active_link_after_hide _) hx
        (by simp [isNavLink_addClass_active, hxnav])
    rw [← hl3]
    apply indicesWhere_congr
    apply closeMobileMenu_map
    · intro n y hn hy
      have hnl : n ≠ link := fun h => hne (by rw [hn, h])
      unfold updateActiveNavLink at hy
      rw [getElem?_updateAt_of_ne _ hnl] at hy
      have := no_active_link_after_hide _ y (List.getElem?_mem hy)
      simp only [Bool.and_eq_false_imp] at this
      cases hp : isNavLink y with
      | false => simp [isNavLink_removeClass_active, hp]
      | true => simp [isNavLink_removeClass_active, hp, this hp]
    · intro s y; rfl

/-- C2, amended, at the sample document and its link to `#team`. -/
theorem click_unknown_target_witness :
    activePages (handleNavigation 14 sampleWorld).world.doc = [] ∧
    containsClass (handleNavigation 14 sampleWorld).world.doc 14 "active" = true ∧
    activeNavLinks (handleNavigation 14 sampleWorld).world.doc = [14] :=
  click_unknown_target sampleWorld 14
    { blank with classList := ["nav-link"], href := some "#team" } "#team"
    (by decide) (by decide) (by decide) (by decide) (by decide) (by decide)

/-! ## The contact form (C5) -/

theorem successMessage_contains (name email service : String) :
    occursIn name (successMessage name email service) ∧
    occursIn email (successMessage name email service) ∧
    occursIn service (successMessage name email service) := by
  refine ⟨⟨"Thank you, ".data, ("! Your message has been sent. We'll contact you at "
      ++ email ++ " regarding " ++ service ++ " soon.").data, ?_⟩,
    ⟨("Thank you, " ++ name ++ "! Your message has been sent. We'll contact you at ").data,
      (" regarding " ++ service ++ " soon.").data, ?_⟩,
    ⟨("Thank you, " ++ name ++ "! Your message has been sent. We'll contact you at "
      ++ email ++ " regarding ").data, " soon.".data, ?_⟩⟩ <;>
  simp [successMessage, String.data_append, List.append_assoc]

theorem getElementById_resetForm (f : Nat) (d : Doc) (id : String) :
    getElementById (resetForm f d) id = getElementById d id := by
  apply getElementById_congr
  unfold resetForm
  rw [List.map_map]
  apply List.map_congr_left
  intro e _
  simp only [Function.comp]
  split <;> rfl

/-- C5 as stated fails: on `selectDoc`, whose service control has the default
value `Web Design`, a submission with name `Ann`, email `a@x.com` and service
`Branding` shows the confirmation and leaves `Web Design`, not the empty
string, in the service field. -/
theorem handleFormSubmit_keeps_default :
    valueOf selectDoc "service" = some "Branding" ∧
    (handleFormSubmit { doc := selectDoc, alerts := [] }).world.alerts
      = [successMessage "Ann" "a@x.com" "Branding"] ∧
    valueOf (handleFormSubmit { doc := selectDoc, alerts := [] }).world.doc "service"
      = some "Web Design" ∧
    valueOf (handleFormSubmit { doc := selectDoc, alerts := [] }).world.doc "service"
      ≠ some "" := by
  decide

/-- C5, amended: for every submission of the contact form with any name, email
and service values, the confirmation string passed to `alert` contains all
three values verbatim, and afterwards every control owned by the form, the
four fields among them, holds its default value (the empty string when the
markup gives none). -/
theorem handleFormSubmit_confirms (w : World) (f : Nat) (name email service message : String)
    (hf : getElementById w.doc "contactForm" = some f)
    (hn : valueOf w.doc "name" = some name) (he : valueOf w.doc "email" = some email)
    (hs : valueOf w.doc "service" = some service)
    (hm : valueOf w.doc "message" = some message) :
    (handleFormSubmit w).world.alerts = w.alerts ++ [successMessage name email service] ∧
    occursIn name (successMessage name email service) ∧
    occursIn email (successMessage name email service) ∧
    occursIn service (successMessage name email service) ∧
    ∀ id i e, getElementById w.doc id = some i → w.doc[i]? = some e →
      e.formOwner = some f →
      valueOf (handleFormSubmit w).world.doc id = some e.defaultValue := by
  have hw : (handleFormSubmit w).world
      = { doc := resetForm f w.doc,
          alerts := w.alerts ++ [successMessage name email service] } := by
    simp [handleFormSubmit, hn, he, hs, hm, hf, showSuccessMessage, Completion.world]
  obtain ⟨h1, h2, h3⟩ := successMessage_contains name email service
  refine ⟨by rw [hw], h1, h2, h3, ?_⟩
  intro id i e hi hie hown
  rw [hw]
  simp only [valueOf, getElementById_resetForm, hi]
  simp [resetForm, hie, hown]

/-- C5, amended, at the sample document, whose controls have empty defaults:
the confirmation holds `Ann`, `a@x.com` and `Branding`, and the name field is
empty afterwards. -/
theorem handleFormSubmit_confirms_witness :
    (handleFormSubmit sampleWorld).world.alerts = [successMessage "Ann" "a@x.com" "Branding"] ∧
    occursIn "Ann" (successMessage "Ann" "a@x.com" "Branding") ∧
    occursIn "a@x.com" (successMessage "Ann" "a@x.com" "Branding") ∧
    occursIn "Branding" (successMessage "Ann" "a@x.com" "Branding") ∧
    valueOf (handleFormSubmit sampleWorld).world.doc "name" = some "" ∧
    valueOf (handleFormSubmit sampleWorld).world.doc "email" = some "" ∧
    valueOf (handleFormSubmit sampleWorld).world.doc "service" = some "" ∧
    valueOf (handleFormSubmit sampleWorld).world.doc "message" = some "" :=
  have h := handleFormSubmit_confirms sampleWorld 9 "Ann" "a@x.com" "Branding" "Hello"
    (by decide) (by decide) (by decide) (by decide) (by decide)
  ⟨h.1, h.2.1, h.2.2.1, h.2.2.2.1,
   h.2.2.2.2 "name" 10 _ (by decide) rfl rfl,
   h.2.2.2.2 "email" 11 _ (by decide) rfl rfl,
   h.2.2.2.2 "service" 12 _ (by decide) rfl rfl,
   h.2.2.2.2 "message" 13 _ (by decide) rfl rfl⟩

/-! ## A shown card stays shown (C9) -/

theorem Keeps.refl (d : Doc) : Keeps d d := fun _ e he hs => ⟨e, he, hs⟩

theorem Keeps.trans {d₁ d₂ d₃ : Doc} (h₁ : Keeps d₁ d₂) (h₂ : Keeps d₂ d₃) : Keeps d₁ d₃ := by
  intro i e he hs
  obtain ⟨e', he', hs'⟩ := h₁ i e he hs
  exact h₂ i e' he' hs'

theorem keeps_of_style {d d' : Doc} (h : d'.map (·.style) = d.map (·.style)) : Keeps d d' := by
  intro i e he hs
  have := congrArg (fun l => l[i]?) h
  simp only [List.getElem?_map, he, Option.map_some'] at this
  cases he' : d'[i]? with
  | none => simp [he'] at this
  | some e' =>
    simp only [he', Option.map_some', Option.some.injEq] at this
    exact ⟨e', rfl, by unfold Shown at hs ⊢; rw [this]; exact hs⟩

theorem keeps_updateAt (f : Element → Element) (hf : ∀ e, Shown e → Shown (f e)) (k : Nat)
    (d : Doc) : Keeps d (updateAt f k d) := by
  intro i e he hs
  rw [getElem?_updateAt, he]
  by_cases hik : i = k
  · exact ⟨f e, by simp [hik], hf e hs⟩
  · exact ⟨e, by simp [hik], hs⟩

theorem shown_reveal (e : Element) : Shown (reveal e) := by
  refine ⟨rfl, ?_⟩
  show "translateY(0)" ≠ "translateY(30px)"
  decide

theorem keeps_animateFrom (win : Window) (d : Doc) : Keeps d (animateFrom win 0 d) := by
  intro i e he hs
  rw [getElem?_animateFrom, he]
  simp only [Option.map_some']
  split
  · exact ⟨_, rfl, shown_reveal e⟩
  · exact ⟨_, rfl, hs⟩

@[simp] theorem addClass_style (t : String) (e : Element) : (e.addClass t).style = e.style := by
  unfold Element.addClass; split <;> rfl

@[simp] theorem removeClass_style (t : String) (e : Element) :
    (e.removeClass t).style = e.style := rfl

@[simp] theorem toggleClass_style (t : String) (e : Element) :
    (e.toggleClass t).style = e.style := by
  unfold Element.toggleClass; split <;> rfl

@[simp] theorem setInnerHTML_style (s : String) (e : Element) :
    (e.setInnerHTML s).style = e.style := rfl

theorem updateAt_style (f : Element → Element) (hf : ∀ e, (f e).style = e.style) (k : Nat)
    (d : Doc) : (updateAt f k d).map (·.style) = d.map (·.style) :=
  map_updateAt_congr _ f k d (fun e _ => hf e)

theorem forEachWhere_style (q : Element → Bool) (f : Element → Element)
    (hf : ∀ e, (f e).style = e.style) (d : Doc) :
    (forEachWhere q f d).map (·.style) = d.map (·.style) :=
  map_forEachWhere_congr _ q f d (fun e _ _ => hf e)

theorem updateHeaderOnScroll_style (win : Window) (w : World) :
    (updateHeaderOnScroll win w).world.doc.map (·.style) = w.doc.map (·.style) := by
  unfold updateHeaderOnScroll
  cases getElementById w.doc "header" with
  | none => rfl
  | some h =>
    simp only
    split
    · exact updateAt_style _ (addClass_style "scrolled") h w.doc
    · exact updateAt_style _ (removeClass_style "scrolled") h w.doc

theorem toggleMobileMenu_style (w : World) :
    (toggleMobileMenu w).world.doc.map (·.style) = w.doc.map (·.style) := by
  unfold toggleMobileMenu
  cases getElementById w.doc "mainNav" with
  | none => rfl
  | some n =>
    have h1 := updateAt_style _ (toggleClass_style "active") n w.doc
    cases getElementById w.doc "mobileMenuBtn" with
    | none => exact h1
    | some b =>
      simp only [Completion.world]
      rw [updateAt_style _ (setInnerHTML_style _), h1]

theorem closeMobileMenu_style (w : World) :
    (closeMobileMenu w).world.doc.map (·.style) = w.doc.map (·.style) :=
  closeMobileMenu_map _ w (fun _ _ _ _ => rfl) (fun _ _ => rfl)

theorem setActivePage_style (id : String) (d : Doc) :
    (setActivePage id d).map (·.style) = d.map (·.style) := by
  have h1 := forEachWhere_style isPage _ (removeClass_style "active") d
  unfold setActivePage
  simp only
  split
  · rw [updateAt_style _ (addClass_style "active"), h1]
  · exact h1

theorem updateActiveNavLink_style (link : Nat) (d : Doc) :
    (updateActiveNavLink link d).map (·.style) = d.map (·.style) := by
  unfold updateActiveNavLink
  rw [updateAt_style _ (addClass_style "active")]
  exact forEachWhere_style isNavLink _ (removeClass_style "active") d

theorem handleNavigation_style (link : Nat) (w : World) :
    (handleNavigation link w).world.doc.map (·.style) = w.doc.map (·.style) := by
  cases he : w.doc[link]? with
  | none => simp [handleNavigation, he, Completion.world]
  | some e =>
    cases hh : e.href with
    | none => simp [handleNavigation, he, hh, Completion.world]
    | some href =>
      rw [handleNavigation_world link w e href he hh, closeMobileMenu_style]
      simp only
      rw [updateActiveNavLink_style, setActivePage_style]

theorem handleResize_style (win : Window) (w : World) :
    (handleResize win w).world.doc.map (·.style) = w.doc.map (·.style) := by
  unfold handleResize
  split
  · cases getElementById w.doc "mainNav" with
    | none => rfl
    | some n =>
      simp only
      split
      · exact closeMobileMenu_style w
      · rfl
  · rfl

theorem resetForm_style (f : Nat) (d : Doc) :
    (resetForm f d).map (·.style) = d.map (·.style) := by
  unfold resetForm
  rw [List.map_map]
  apply List.map_congr_left
  intro e _
  simp only [Function.comp]
  split <;> rfl

theorem handleFormSubmit_style (w : World) :
    (handleFormSubmit w).world.doc.map (·.style) = w.doc.map (·.style) := by
  unfold handleFormSubmit
  cases valueOf w.doc "name" with
  | none => rfl
  | some name =>
    cases valueOf w.doc "email" with
    | none => rfl
    | some email =>
      cases valueOf w.doc "service" with
      | none => rfl
      | some service =>
        cases valueOf w.doc "message" with
        | none => rfl
        | some message =>
          cases getElementById w.doc "contactForm" with
          | none => rfl
          | some f => exact resetForm_style f w.doc

theorem handlePortfolioClick_doc (item : Nat) (w : World) :
    (handlePortfolioClick item w).world.doc = w.doc := by
  cases he : w.doc[item]? with
  | none => simp [handlePortfolioClick, he, Completion.world]
  | some e =>
    cases hh : e.heading <;> simp [handlePortfolioClick, he, hh, Completion.world]

theorem keeps_setTransform (s : String) (hs : s ≠ "translateY(30px)") (card : Nat) (d : Doc) :
    Keeps d (updateAt (Element.setTransform s) card d) :=
  keeps_updateAt (Element.setTransform s) (fun _ h => ⟨h.1, hs⟩) card d

/-- No event takes an element out of the shown state. -/
theorem keeps_dispatch (w : World) (ev : Event) : Keeps w.doc (dispatch w ev).doc := by
  cases hb : getElementById w.doc "mobileMenuBtn" with
  | none =>
    cases ev <;> simp only [dispatch, hb] <;>
      first
        | exact Keeps.refl _
        | exact keeps_of_style (updateHeaderOnScroll_style _ w)
  | some b =>
    cases ev with
    | scroll win =>
      simp only [dispatch, hb]
      exact (keeps_of_style (updateHeaderOnScroll_style win w)).trans
        (keeps_animateFrom win _)
    | timer win => simp only [dispatch, hb]; exact keeps_animateFrom win _
    | resize win => simp only [dispatch, hb]; exact keeps_of_style (handleResize_style win w)
    | menuClick => simp only [dispatch, hb]; exact keeps_of_style (toggleMobileMenu_style w)
    | navClick link =>
      simp only [dispatch, hb]
      split
      · exact keeps_of_style (handleNavigation_style link w)
      · exact Keeps.refl _
    | cardEnter card =>
      simp only [dispatch, hb]
      split
      · exact keeps_setTransform _ (by decide) card w.doc
      · exact Keeps.refl _
    | cardLeave card =>
      simp only [dispatch, hb]
      split
      · exact keeps_setTransform _ (by decide) card w.doc
      · exact Keeps.refl _
    | portfolioClick item =>
      simp only [dispatch, hb]
      split
      · rw [handlePortfolioClick_doc]; exact Keeps.refl _
      · exact Keeps.refl _
    | formSubmit =>
      simp only [dispatch, hb]
      cases getElementById w.doc "contactForm" with
      | none => exact Keeps.refl _
      | some f => exact keeps_of_style (handleFormSubmit_style w)

theorem keeps_run (evs : List Event) (w : World) : Keeps w.doc (run w evs).doc := by
  induction evs generalizing w with
  | nil => exact Keeps.refl _
  | cons ev evs ih =>
    simp only [run, List.foldl_cons] at ih ⊢
    exact (keeps_dispatch w ev).trans (ih (dispatch w ev))

/-- C9: once an element has been shown (opacity `1`, transform `translateY(0)`),
after every sequence of events (scroll, timer, resize, menu click, nav click,
mouse enter and leave on a card, portfolio click, form submit) its opacity is
still `1`, so not `0`, and its transform is not the initial `translateY(30px)`. -/
theorem shown_stays_shown (w : World) (i : Nat) (e : Element) (evs : List Event)
    (he : w.doc[i]? = some e) (ho : e.style.opacity = "1")
    (ht : e.style.transform = "translateY(0)") :
    ∃ e', (run w evs).doc[i]? = some e' ∧ e'.style.opacity = "1" ∧
      e'.style.opacity ≠ "0" ∧ e'.style.transform ≠ "translateY(30px)" := by
  have hs : Shown e := ⟨ho, by rw [ht]; decide⟩
  obtain ⟨e', he', h1, h2⟩ := keeps_run evs w i e he hs
  exact ⟨e', he', h1, by rw [h1]; decide, h2⟩

/-- C9 at the sample document: the service card at index 7 is revealed by the
timer after `init`, and is still shown after a scroll that moves it below the
threshold, a hover, a nav click, a menu click, a resize, a portfolio click and
a form submission. -/
theorem shown_stays_shown_witness :
    ∃ e', (run (run (init (windowAt 0 100) sampleWorld).world [Event.timer (windowAt 0 100)])
        [Event.scroll (windowAt 80 900), Event.cardEnter 7, Event.cardLeave 7,
         Event.navClick 4, Event.menuClick, Event.resize (windowAt 0 900),
         Event.portfolioClick 8, Event.formSubmit]).doc[7]? = some e' ∧
      e'.style.opacity = "1" ∧ e'.style.opacity ≠ "0" ∧
      e'.style.transform ≠ "translateY(30px)" :=
  shown_stays_shown
    (run (init (windowAt 0 100) sampleWorld).world [Event.timer (windowAt 0 100)]) 7
    { blank with classList := ["service-card"],
                 style := { opacity := "1", transform := "translateY(0)",
                            transition := "opacity 0.8s ease, transform 0.8s ease" } }
    [Event.scroll (windowAt 80 900), Event.cardEnter 7, Event.cardLeave 7,
     Event.navClick 4, Event.menuClick, Event.resize (windowAt 0 900),
     Event.portfolioClick 8, Event.formSubmit]
    (by decide!) rfl rfl

end Site
